import Mathlib

/-
Shallow embedding of the LC-3 simulator in src/lc3/sim.c.

Machine words are modelled as Nat with explicit reduction modulo 65536
wherever the C code stores into a uint16_t object whose value could exceed
16 bits (additions, shifted masks).  Memory and the register file are total
functions from Nat; the C arrays only ever receive uint16_t indices and
values.  Console input is a list of pending bytes (check_key is "the list
is nonempty", getchar pops the head); console output is the list of bytes
written so far.  abort() is modelled by clearing `running` and setting the
distinguishing `aborted` flag; the TRAP HALT path clears `running` only.
The unbounded C loops of TRAP PUTS and TRAP PUTSP are given explicit fuel.
-/

namespace LC3

/-- Register file indices, from the C enum R_R0 .. R_COND. -/
def R_R0 : Nat := 0

def R_R1 : Nat := 1

def R_R2 : Nat := 2

def R_R3 : Nat := 3

def R_R4 : Nat := 4

def R_R5 : Nat := 5

def R_R6 : Nat := 6

def R_R7 : Nat := 7

def R_PC : Nat := 8

def R_COND : Nat := 9

/-- Condition flag FL_POS = 1 << 0. -/
def FL_POS : Nat := 1

/-- Condition flag FL_ZRO = 1 << 1. -/
def FL_ZRO : Nat := 2

/-- Condition flag FL_NEG = 1 << 2. -/
def FL_NEG : Nat := 4

def OP_BR : Nat := 0

def OP_ADD : Nat := 1

def OP_LD : Nat := 2

def OP_ST : Nat := 3

def OP_JSR : Nat := 4

def OP_AND : Nat := 5

def OP_LDR : Nat := 6

def OP_STR : Nat := 7

def OP_RTI : Nat := 8

def OP_NOT : Nat := 9

def OP_LDI : Nat := 10

def OP_STI : Nat := 11

def OP_JMP : Nat := 12

def OP_RES : Nat := 13

def OP_LEA : Nat := 14

def OP_TRAP : Nat := 15

/-- Keyboard status register address. -/
def MR_KBSR : Nat := 0xfe00

/-- Keyboard data register address. -/
def MR_KBDR : Nat := 0xfe02

def TRAP_GETC : Nat := 0x20

def TRAP_OUT : Nat := 0x21

def TRAP_PUTS : Nat := 0x22

def TRAP_IN : Nat := 0x23

def TRAP_PUTSP : Nat := 0x24

def TRAP_HALT : Nat := 0x25

/-- The C source has `#define MEMORY_MAX UINT16_MAX` and declares the
backing store as `uint16_t memory[MEMORY_MAX]`, an array of 65535 words
whose valid indices are 0 .. 0xFFFE. -/
def MEMORY_MAX : Nat := 65535

/-- PC_START = 0x3000. -/
def PC_START : Nat := 0x3000

/-- Whole machine state: memory, the ten-slot register array (eight
general registers, PC at index 8, condition flags at index 9), pending
console input bytes, console output bytes so far, the dispatcher loop
flag `running`, and `aborted`, which records termination through abort()
as opposed to the TRAP HALT path. -/
structure Machine where
  memory : Nat → Nat
  registers : Nat → Nat
  input : List Nat
  output : List Nat
  running : Bool
  aborted : Bool

/-- Read a register slot, registers[r]. -/
def getReg (m : Machine) (r : Nat) : Nat :=
  m.registers r

/-- Store v into register slot r, registers[r] = v. -/
def setReg (r v : Nat) (m : Machine) : Machine :=
  { m with registers := fun q => if q = r then v else m.registers q }

/-- mem_write from sim.c: unconditional store memory[address] = val. -/
def mem_write (address val : Nat) (m : Machine) : Machine :=
  { m with memory := fun a => if a = address then val else m.memory a }

/-- mem_read from sim.c: reading MR_KBSR polls check_key; when input is
pending it sets memory[MR_KBSR] = 1 << 15 and stages one character in
memory[MR_KBDR], otherwise it stores 0 in memory[MR_KBSR]; every read
returns the (possibly refreshed) stored word. -/
def mem_read (address : Nat) (m : Machine) : Nat × Machine :=
  if address = MR_KBSR then
    match m.input with
    | c :: rest =>
      let m2 : Machine :=
        { m with
          memory := fun a =>
            if a = MR_KBDR then c % 65536
            else if a = MR_KBSR then 32768
            else m.memory a,
          input := rest }
      (m2.memory address, m2)
    | [] =>
      let m2 : Machine :=
        { m with memory := fun a => if a = MR_KBSR then 0 else m.memory a }
      (m2.memory address, m2)
  else (m.memory address, m)

/-- sign_extend from sim.c.  The C assignment `x |= (0xFFFF << bit_count)`
stores into a uint16_t, hence the explicit reduction modulo 65536. -/
def sign_extend (x : Nat) (bit_count : Nat) : Nat :=
  if (x >>> (bit_count - 1)) &&& 1 = 1 then
    (x ||| (0xFFFF <<< bit_count)) % 65536
  else x

/-- swap16 from sim.c (used only by the image loader). -/
def swap16 (x : Nat) : Nat :=
  ((x <<< 8) ||| (x >>> 8)) % 65536

/-- update_flags from sim.c: overwrite registers[R_COND] with FL_ZRO,
FL_NEG or FL_POS according to the value of registers[r]. -/
def update_flags (r : Nat) (m : Machine) : Machine :=
  if getReg m r = 0 then setReg R_COND FL_ZRO m
  else if getReg m r >>> 15 ≠ 0 then setReg R_COND FL_NEG m
  else setReg R_COND FL_POS m

/-- The flag value update_flags assigns for a result value v. -/
def condOf (v : Nat) : Nat :=
  if v = 0 then FL_ZRO
  else if v >>> 15 ≠ 0 then FL_NEG
  else FL_POS

/-- cmd_add from sim.c. -/
def cmd_add (instr : Nat) (m : Machine) : Machine :=
  let dr := (instr >>> 9) &&& 0x7
  let sr1 := (instr >>> 6) &&& 0x7
  let imm_flag := (instr >>> 5) &&& 0x1
  let m2 :=
    if imm_flag ≠ 0 then
      setReg dr ((getReg m sr1 + sign_extend (instr &&& 0x1f) 5) % 65536) m
    else
      setReg dr ((getReg m sr1 + getReg m (instr &&& 0x7)) % 65536) m
  update_flags dr m2

/-- cmd_and from sim.c. -/
def cmd_and (instr : Nat) (m : Machine) : Machine :=
  let dr := (instr >>> 9) &&& 0x7
  let sr1 := (instr >>> 6) &&& 0x7
  let imm_flag := (instr >>> 5) &&& 0x1
  let m2 :=
    if imm_flag ≠ 0 then
      setReg dr (getReg m sr1 &&& sign_extend (instr &&& 0x1f) 5) m
    else
      setReg dr (getReg m sr1 &&& getReg m (instr &&& 0x7)) m
  update_flags dr m2

/-- cmd_not from sim.c; the uint16_t complement of a 16-bit value is
xor with 0xFFFF. -/
def cmd_not (instr : Nat) (m : Machine) : Machine :=
  let dr := (instr >>> 9) &&& 0x7
  let sr := (instr >>> 6) &&& 0x7
  update_flags dr (setReg dr ((getReg m sr ^^^ 0xFFFF) % 65536) m)

/-- cmd_br from sim.c. -/
def cmd_br (instr : Nat) (m : Machine) : Machine :=
  let pc_offset := sign_extend (instr &&& 0x1ff) 9
  let cond_flag := (instr >>> 9) &&& 0x7
  if cond_flag &&& getReg m R_COND ≠ 0 then
    setReg R_PC ((getReg m R_PC + pc_offset) % 65536) m
  else m

/-- cmd_jmp from sim.c (also realizes RET when the base field is 7). -/
def cmd_jmp (instr : Nat) (m : Machine) : Machine :=
  let sr1 := (instr >>> 6) &&& 0x7
  setReg R_PC (getReg m sr1) m

/-- cmd_jsr from sim.c: the link write into R7 happens before the base
register is read in the JSRR branch. -/
def cmd_jsr (instr : Nat) (m : Machine) : Machine :=
  let long_flag := (instr >>> 11) &&& 1
  let m2 := setReg R_R7 (getReg m R_PC) m
  if long_flag ≠ 0 then
    setReg R_PC ((getReg m2 R_PC + sign_extend (instr &&& 0x7ff) 11) % 65536) m2
  else
    setReg R_PC (getReg m2 ((instr >>> 6) &&& 0x7)) m2

/-- cmd_ld from sim.c. -/
def cmd_ld (instr : Nat) (m : Machine) : Machine :=
  let dr := (instr >>> 9) &&& 0x7
  let pc_offset := sign_extend (instr &&& 0x1ff) 9
  let res := mem_read ((getReg m R_PC + pc_offset) % 65536) m
  update_flags dr (setReg dr res.1 res.2)

/-- cmd_ldi from sim.c: double indirection, both through mem_read. -/
def cmd_ldi (instr : Nat) (m : Machine) : Machine :=
  let dr := (instr >>> 9) &&& 0x7
  let pc_offset := sign_extend (instr &&& 0x1ff) 9
  let res1 := mem_read ((getReg m R_PC + pc_offset) % 65536) m
  let res2 := mem_read res1.1 res1.2
  update_flags dr (setReg dr res2.1 res2.2)

/-- cmd_ldr from sim.c. -/
def cmd_ldr (instr : Nat) (m : Machine) : Machine :=
  let dr := (instr >>> 9) &&& 0x7
  let sr1 := (instr >>> 6) &&& 0x7
  let offset := sign_extend (instr &&& 0x3f) 6
  let res := mem_read ((getReg m sr1 + offset) % 65536) m
  update_flags dr (setReg dr res.1 res.2)

/-- cmd_lea from sim.c. -/
def cmd_lea (instr : Nat) (m : Machine) : Machine :=
  let dr := (instr >>> 9) &&& 0x7
  let pc_offset := sign_extend (instr &&& 0x1ff) 9
  update_flags dr (setReg dr ((getReg m R_PC + pc_offset) % 65536) m)

/-- cmd_st from sim.c. -/
def cmd_st (instr : Nat) (m : Machine) : Machine :=
  let dr := (instr >>> 9) &&& 0x7
  let pc_offset := sign_extend (instr &&& 0x1ff) 9
  mem_write ((getReg m R_PC + pc_offset) % 65536) (getReg m dr) m

/-- cmd_sti from sim.c: the target address is obtained through mem_read. -/
def cmd_sti (instr : Nat) (m : Machine) : Machine :=
  let dr := (instr >>> 9) &&& 0x7
  let pc_offset := sign_extend (instr &&& 0x1ff) 9
  let res := mem_read ((getReg m R_PC + pc_offset) % 65536) m
  mem_write res.1 (getReg res.2 dr) res.2

/-- cmd_str from sim.c. -/
def cmd_str (instr : Nat) (m : Machine) : Machine :=
  let dr := (instr >>> 9) &&& 0x7
  let sr1 := (instr >>> 6) &&& 0x7
  let offset := sign_extend (instr &&& 0x3f) 6
  mem_write ((getReg m sr1 + offset) % 65536) (getReg m dr) m

/-- The TRAP PUTS loop: one character per word, the low byte of each word,
until a zero word; fuel bounds the unbounded C loop. -/
def puts_loop : Nat → (Nat → Nat) → Nat → List Nat → List Nat
  | 0, _, _, out => out
  | fuel + 1, mem, c, out =>
    if mem c = 0 then out
    else puts_loop fuel mem (c + 1) (out ++ [mem c % 256])

/-- The TRAP PUTSP loop: the loop guard tests the whole word; char1 (the
low byte) is written unconditionally, char2 (the high byte, as a char) is
written only when nonzero; fuel bounds the unbounded C loop. -/
def putsp_loop : Nat → (Nat → Nat) → Nat → List Nat → List Nat
  | 0, _, _, out => out
  | fuel + 1, mem, c, out =>
    if mem c = 0 then out
    else
      let char1 := mem c &&& 0xff
      let char2 := (mem c >>> 8) % 256
      let out2 := if char2 ≠ 0 then out ++ [char1, char2] else out ++ [char1]
      putsp_loop fuel mem (c + 1) out2

/-- Bytes of the TRAP IN prompt printf("Enter a character: "). -/
def prompt_bytes : List Nat :=
  "Enter a character: ".toList.map Char.toNat

/-- Bytes of puts("HALT"): the string plus the trailing newline. -/
def halt_bytes : List Nat :=
  ("HALT".toList.map Char.toNat) ++ [10]

/-- cmd_trap from sim.c.  The link write registers[R_R7] = registers[R_PC]
happens before the switch on the low 8 bits; an unmatched vector falls
through the switch with no further effect.  getchar is modelled as taking
the head of the pending input (0 when none); the TRAP IN handler stores
the (uint16_t)(char) conversion of the byte it read. -/
def cmd_trap (instr : Nat) (m : Machine) : Machine :=
  let m1 := setReg R_R7 (getReg m R_PC) m
  let vect := instr &&& 0xFF
  if vect = TRAP_GETC then
    let c := m1.input.headD 0
    update_flags R_R0 (setReg R_R0 (c % 65536) { m1 with input := m1.input.tail })
  else if vect = TRAP_OUT then
    { m1 with output := m1.output ++ [getReg m1 R_R0 % 256] }
  else if vect = TRAP_PUTS then
    { m1 with output := puts_loop 65536 m1.memory (getReg m1 R_R0) m1.output }
  else if vect = TRAP_IN then
    let c := m1.input.headD 0 % 256
    let m2 := { m1 with input := m1.input.tail,
                        output := m1.output ++ prompt_bytes ++ [c] }
    update_flags R_R0 (setReg R_R0 (if c < 128 then c else c + 65280) m2)
  else if vect = TRAP_PUTSP then
    { m1 with output := putsp_loop 65536 m1.memory (getReg m1 R_R0) m1.output }
  else if vect = TRAP_HALT then
    { m1 with output := m1.output ++ halt_bytes, running := false }
  else m1

/-- The switch of the dispatcher loop in main, on the top 4 bits of the
fetched instruction.  The default arm of the C switch, shared by OP_RES
and OP_RTI, calls abort(), modelled by clearing running and raising the
aborted flag. -/
def stepDispatch (instr : Nat) (m1 : Machine) : Machine :=
  let op := instr >>> 12
  if op = OP_ADD then cmd_add instr m1
  else if op = OP_AND then cmd_and instr m1
  else if op = OP_NOT then cmd_not instr m1
  else if op = OP_BR then cmd_br instr m1
  else if op = OP_JMP then cmd_jmp instr m1
  else if op = OP_JSR then cmd_jsr instr m1
  else if op = OP_LD then cmd_ld instr m1
  else if op = OP_LDI then cmd_ldi instr m1
  else if op = OP_LDR then cmd_ldr instr m1
  else if op = OP_LEA then cmd_lea instr m1
  else if op = OP_ST then cmd_st instr m1
  else if op = OP_STI then cmd_sti instr m1
  else if op = OP_STR then cmd_str instr m1
  else if op = OP_TRAP then cmd_trap instr m1
  else { m1 with running := false, aborted := true }

/-- One iteration of the dispatcher loop body in main: fetch the word at
the current PC through mem_read, increment PC (wrapping, uint16_t
post-increment), and dispatch on the opcode. -/
def step (m : Machine) : Machine :=
  let fetch := mem_read (getReg m R_PC) m
  stepDispatch fetch.1 (setReg R_PC ((getReg m R_PC + 1) % 65536) fetch.2)

/-- The while (running) loop of main, with fuel. -/
def run : Nat → Machine → Machine
  | 0, m => m
  | n + 1, m => if m.running then run n (step m) else m

/-- A machine in the post-startup state: zeroed memory and registers
except registers[R_COND] = FL_ZRO and registers[R_PC] = PC_START. -/
def zeroMachine : Machine :=
  { memory := fun _ => 0,
    registers := fun q => if q = R_COND then FL_ZRO else if q = R_PC then PC_START else 0,
    input := [],
    output := [],
    running := true,
    aborted := false }

/-- A machine whose next instruction is LEA R0, #5 (0xE005) at 0x3000. -/
def leaMachine : Machine :=
  { zeroMachine with memory := fun a => if a = 0x3000 then 0xE005 else 0 }

/-- A machine with one pending input byte, for the GETC trap. -/
def getcMachine : Machine :=
  { zeroMachine with input := [65] }

/-- A machine whose R0 points at a packed string whose first word has a
zero low byte and the nonzero high byte 0x41, followed by the word 0x42
and a zero terminator word. -/
def putspMachine : Machine :=
  { zeroMachine with
      memory := fun a => if a = 0x3100 then 0x4100 else if a = 0x3101 then 0x42 else 0,
      registers := fun q => if q = 0 then 0x3100 else zeroMachine.registers q }

/-- A machine whose next instruction is TRAP 0xFF (0xF0FF), an
unrecognized trap vector. -/
def unkTrapMachine : Machine :=
  { zeroMachine with memory := fun a => if a = 0x3000 then 0xF0FF else 0 }

/-- A machine whose next instruction word has the RTI opcode (0x8000). -/
def rtiMachine : Machine :=
  { zeroMachine with memory := fun a => if a = 0x3000 then 0x8000 else 0 }

/-- A machine whose next instruction is TRAP HALT (0xF025). -/
def haltTrapMachine : Machine :=
  { zeroMachine with memory := fun a => if a = 0x3000 then 0xF025 else 0 }

/-- A machine with one pending input byte, for the keyboard MMIO claim. -/
def kbMachine : Machine :=
  { zeroMachine with input := [65] }

/-- A machine whose register 1 holds 0xFFFF, for the wraparound claim. -/
def addMachine : Machine :=
  { zeroMachine with registers := fun q => if q = 1 then 0xFFFF else zeroMachine.registers q }

/-- A machine whose next instruction is JSRR with base register 7
(0x41C0) at 0x3000. -/
def jsrrMachine : Machine :=
  { zeroMachine with memory := fun a => if a = 0x3000 then 0x41C0 else 0 }

/- Helper lemmas about the state accessors. -/

theorem getReg_setReg_self (r v : Nat) (m : Machine) : getReg (setReg r v m) r = v := by
  simp [getReg, setReg]

theorem getReg_setReg_ne (r v q : Nat) (m : Machine) (h : q ≠ r) :
    getReg (setReg r v m) q = getReg m q := by
  simp [getReg, setReg, h]

theorem setReg_memory (r v : Nat) (m : Machine) : (setReg r v m).memory = m.memory := rfl

theorem setReg_input (r v : Nat) (m : Machine) : (setReg r v m).input = m.input := rfl

theorem setReg_output (r v : Nat) (m : Machine) : (setReg r v m).output = m.output := rfl

theorem setReg_running (r v : Nat) (m : Machine) : (setReg r v m).running = m.running := rfl

theorem setReg_aborted (r v : Nat) (m : Machine) : (setReg r v m).aborted = m.aborted := rfl

theorem mem_write_registers (a v : Nat) (m : Machine) :
    (mem_write a v m).registers = m.registers := rfl

theorem mem_write_memory_self (a v : Nat) (m : Machine) : (mem_write a v m).memory a = v := by
  simp [mem_write]

theorem mem_read_ne_kbsr (a : Nat) (m : Machine) (h : a ≠ MR_KBSR) :
    mem_read a m = (m.memory a, m) := by
  simp [mem_read, h]

theorem update_flags_eq (r : Nat) (m : Machine) :
    update_flags r m = setReg R_COND (condOf (getReg m r)) m := by
  unfold update_flags condOf
  split_ifs <;> rfl

theorem run_halted (k : Nat) (m : Machine) (h : m.running = false) : run k m = m := by
  cases k with
  | zero => rfl
  | succ n => simp [run, h]

theorem and7_lt (x : Nat) : x &&& 7 < 8 :=
  lt_of_le_of_lt Nat.and_le_right (by decide)

theorem flags_after_update (r : Nat) (M : Machine) (h : r ≠ R_COND) :
    getReg (update_flags r M) R_COND = condOf (getReg (update_flags r M) r) := by
  rw [update_flags_eq, getReg_setReg_self, getReg_setReg_ne _ _ _ _ h]

theorem getReg_after_update_flags (r q : Nat) (M : Machine) (h : q ≠ R_COND) :
    getReg (update_flags r M) q = getReg M q := by
  rw [update_flags_eq, getReg_setReg_ne _ _ _ _ h]

theorem dr_ne_rcond (x : Nat) : (x >>> 9) &&& 0x7 ≠ R_COND := by
  have h8 := and7_lt (x >>> 9)
  simp only [R_COND]
  omega

theorem dr_ne_rpc (x : Nat) : (x >>> 9) &&& 0x7 ≠ R_PC := by
  have h8 := and7_lt (x >>> 9)
  simp only [R_PC]
  omega

theorem step_fetch (m : Machine) (hk : getReg m R_PC ≠ MR_KBSR) :
    step m =
      stepDispatch (m.memory (getReg m R_PC))
        (setReg R_PC ((getReg m R_PC + 1) % 65536) m) := by
  simp only [step, mem_read_ne_kbsr _ _ hk]

theorem stepDispatch_br (instr : Nat) (m1 : Machine) (h : instr >>> 12 = OP_BR) :
    stepDispatch instr m1 = cmd_br instr m1 := by
  simp [stepDispatch, h, OP_ADD, OP_AND, OP_NOT, OP_BR]

theorem stepDispatch_jsr (instr : Nat) (m1 : Machine) (h : instr >>> 12 = OP_JSR) :
    stepDispatch instr m1 = cmd_jsr instr m1 := by
  simp [stepDispatch, h, OP_ADD, OP_AND, OP_NOT, OP_BR, OP_JMP, OP_JSR]

theorem stepDispatch_ld (instr : Nat) (m1 : Machine) (h : instr >>> 12 = OP_LD) :
    stepDispatch instr m1 = cmd_ld instr m1 := by
  simp [stepDispatch, h, OP_ADD, OP_AND, OP_NOT, OP_BR, OP_JMP, OP_JSR, OP_LD]

theorem stepDispatch_ldi (instr : Nat) (m1 : Machine) (h : instr >>> 12 = OP_LDI) :
    stepDispatch instr m1 = cmd_ldi instr m1 := by
  simp [stepDispatch, h, OP_ADD, OP_AND, OP_NOT, OP_BR, OP_JMP, OP_JSR, OP_LD, OP_LDI]

theorem stepDispatch_lea (instr : Nat) (m1 : Machine) (h : instr >>> 12 = OP_LEA) :
    stepDispatch instr m1 = cmd_lea instr m1 := by
  simp [stepDispatch, h, OP_ADD, OP_AND, OP_NOT, OP_BR, OP_JMP, OP_JSR, OP_LD, OP_LDI,
    OP_LDR, OP_LEA]

theorem stepDispatch_st (instr : Nat) (m1 : Machine) (h : instr >>> 12 = OP_ST) :
    stepDispatch instr m1 = cmd_st instr m1 := by
  simp [stepDispatch, h, OP_ADD, OP_AND, OP_NOT, OP_BR, OP_JMP, OP_JSR, OP_LD, OP_LDI,
    OP_LDR, OP_LEA, OP_ST]

theorem stepDispatch_sti (instr : Nat) (m1 : Machine) (h : instr >>> 12 = OP_STI) :
    stepDispatch instr m1 = cmd_sti instr m1 := by
  simp [stepDispatch, h, OP_ADD, OP_AND, OP_NOT, OP_BR, OP_JMP, OP_JSR, OP_LD, OP_LDI,
    OP_LDR, OP_LEA, OP_ST, OP_STI]

theorem stepDispatch_trap (instr : Nat) (m1 : Machine) (h : instr >>> 12 = OP_TRAP) :
    stepDispatch instr m1 = cmd_trap instr m1 := by
  simp [stepDispatch, h, OP_ADD, OP_AND, OP_NOT, OP_BR, OP_JMP, OP_JSR, OP_LD, OP_LDI,
    OP_LDR, OP_LEA, OP_ST, OP_STI, OP_STR, OP_TRAP]

theorem stepDispatch_abort (instr : Nat) (m1 : Machine)
    (h : instr >>> 12 = OP_RTI ∨ instr >>> 12 = OP_RES) :
    stepDispatch instr m1 = { m1 with running := false, aborted := true } := by
  rcases h with h | h <;>
    simp [stepDispatch, h, OP_ADD, OP_AND, OP_NOT, OP_BR, OP_JMP, OP_JSR, OP_LD, OP_LDI,
      OP_LDR, OP_LEA, OP_ST, OP_STI, OP_STR, OP_TRAP, OP_RTI, OP_RES]

theorem shiftRight15_cases (v : Nat) (hv : v < 65536) : v >>> 15 = 0 ∨ v >>> 15 = 1 := by
  rw [Nat.shiftRight_eq_div_pow]
  have h : (2 : Nat) ^ 15 = 32768 := by norm_num
  rw [h]
  omega

/- Claim theorems. -/

set_option maxHeartbeats 1000000

set_option maxRecDepth 20000

/-- C8: for every width w in {5, 6, 9, 11} and every value x representable
in w bits, masking sign_extend(x, w) back down to its low w bits
reproduces the original w-bit value x. -/
theorem C8_sign_extend_roundtrip (w x : Nat)
    (hw : w = 5 ∨ w = 6 ∨ w = 9 ∨ w = 11) (hx : x < 2 ^ w) :
    sign_extend x w &&& (2 ^ w - 1) = x := by
  have hw16 : w ≤ 16 := by rcases hw with rfl | rfl | rfl | rfl <;> decide
  unfold sign_extend
  split_ifs with h
  · apply Nat.eq_of_testBit_eq
    intro i
    have h65536 : (65536 : Nat) = 2 ^ 16 := by norm_num
    rw [h65536]
    simp only [Nat.testBit_and, Nat.testBit_mod_two_pow, Nat.testBit_or,
      Nat.testBit_shiftLeft, Nat.testBit_two_pow_sub_one]
    by_cases hi : i < w
    · have h1 : i < 16 := lt_of_lt_of_le hi hw16
      have h2 : ¬ (w ≤ i) := by omega
      simp [hi, h1, h2]
    · have h3 : Nat.testBit x i = false :=
        Nat.testBit_lt_two_pow
          (lt_of_lt_of_le hx (Nat.pow_le_pow_right (by norm_num) (by omega)))
      simp [hi, h3]
  · exact Nat.and_pow_two_sub_one_of_lt_two_pow hx

/-- C8 witness: the round trip at width 9 on the 9-bit value 0x1F0,
whose sign bit is set. -/
theorem C8_sign_extend_roundtrip_w :
    sign_extend 0x1F0 9 &&& (2 ^ 9 - 1) = 0x1F0 :=
  C8_sign_extend_roundtrip 9 0x1F0 (Or.inr (Or.inr (Or.inl rfl))) (by decide)

/-- C1: in the embedded word-addressed model a store followed by a load at
any non-MMIO address returns the stored value; but the C backing array is
declared with MEMORY_MAX = UINT16_MAX = 65535 elements, so the highest
address 0xFFFF is not within the declared bound, contradicting the
source comment that announces 65536 locations. -/
theorem C1_memory_word_storage :
    MEMORY_MAX = 65535 ∧ ¬ (0xFFFF < MEMORY_MAX) ∧
    ∀ (a v : Nat) (m : Machine), a ≠ MR_KBSR →
      (mem_read a (mem_write a v m)).1 = v ∧ (mem_write a v m).memory a = v := by
  refine ⟨rfl, by decide, ?_⟩
  intro a v m h
  rw [mem_read_ne_kbsr _ _ h]
  simp [mem_write]

/-- C1 witness: write then read back at address 0xFFFF in the model. -/
theorem C1_memory_word_storage_w :
    (mem_read 0xFFFF (mem_write 0xFFFF 7 zeroMachine)).1 = 7 ∧
    (mem_write 0xFFFF 7 zeroMachine).memory 0xFFFF = 7 :=
  C1_memory_word_storage.2.2 0xFFFF 7 zeroMachine (by decide)

/-- C7: reading the keyboard-status address with empty input stores 0
there; with pending input it stores 32768 (high bit set, bit 15 = 1) there
and stages the head input character into the keyboard-data address,
consuming it; reading the keyboard-data address never polls and returns
the stored word with the machine unchanged, so the staged character reads
back until the status address is polled again. -/
theorem C7_keyboard_mmio (m : Machine) :
    (m.input = [] →
      mem_read MR_KBSR m =
        (0, { m with memory := fun a => if a = MR_KBSR then 0 else m.memory a })) ∧
    (∀ c rest, m.input = c :: rest →
      mem_read MR_KBSR m =
        (32768,
         { m with
             memory := fun a =>
               if a = MR_KBDR then c % 65536
               else if a = MR_KBSR then 32768
               else m.memory a,
             input := rest })) ∧
    (32768 >>> 15 = 1) ∧
    (mem_read MR_KBDR m = (m.memory MR_KBDR, m)) ∧
    (∀ c rest, m.input = c :: rest →
      (mem_read MR_KBDR (mem_read MR_KBSR m).2).1 = c % 65536 ∧
      (mem_read MR_KBDR (mem_read MR_KBSR m).2).2 = (mem_read MR_KBSR m).2) := by
  refine ⟨?_, ?_, by decide, ?_, ?_⟩
  · intro h
    simp [mem_read, h]
  · intro c rest h
    simp [mem_read, h, MR_KBSR, MR_KBDR]
  · simp [mem_read, MR_KBSR, MR_KBDR]
  · intro c rest h
    simp [mem_read, h, MR_KBSR, MR_KBDR]

/-- C3: after each flag-defining instruction (ADD, AND, NOT, LD, LDI, LDR,
LEA, TRAP GETC, TRAP IN) the condition register equals condOf of the
destination register value; condOf always yields exactly one of FL_NEG,
FL_ZRO, FL_POS, is FL_ZRO exactly on 0, and for 16-bit values is FL_NEG
exactly when the top bit is set and FL_POS otherwise; being a function of
the result alone, the previous flag value is fully overwritten. -/
theorem C3_condition_flags (m : Machine) (instr v : Nat) :
    getReg (cmd_add instr m) R_COND = condOf (getReg (cmd_add instr m) ((instr >>> 9) &&& 0x7)) ∧
    getReg (cmd_and instr m) R_COND = condOf (getReg (cmd_and instr m) ((instr >>> 9) &&& 0x7)) ∧
    getReg (cmd_not instr m) R_COND = condOf (getReg (cmd_not instr m) ((instr >>> 9) &&& 0x7)) ∧
    getReg (cmd_ld instr m) R_COND = condOf (getReg (cmd_ld instr m) ((instr >>> 9) &&& 0x7)) ∧
    getReg (cmd_ldi instr m) R_COND = condOf (getReg (cmd_ldi instr m) ((instr >>> 9) &&& 0x7)) ∧
    getReg (cmd_ldr instr m) R_COND = condOf (getReg (cmd_ldr instr m) ((instr >>> 9) &&& 0x7)) ∧
    getReg (cmd_lea instr m) R_COND = condOf (getReg (cmd_lea instr m) ((instr >>> 9) &&& 0x7)) ∧
    (instr &&& 0xFF = TRAP_GETC →
      getReg (cmd_trap instr m) R_COND = condOf (getReg (cmd_trap instr m) R_R0)) ∧
    (instr &&& 0xFF = TRAP_IN →
      getReg (cmd_trap instr m) R_COND = condOf (getReg (cmd_trap instr m) R_R0)) ∧
    (condOf v = FL_NEG ∨ condOf v = FL_ZRO ∨ condOf v = FL_POS) ∧
    ((condOf v = FL_ZRO) ↔ v = 0) ∧
    (v < 65536 → ((condOf v = FL_NEG) ↔ v >>> 15 = 1)) ∧
    (v < 65536 → ((condOf v = FL_POS) ↔ (v ≠ 0 ∧ v >>> 15 = 0))) := by
  have hdr := dr_ne_rcond instr
  have hr0 : R_R0 ≠ R_COND := by decide
  refine ⟨?_, ?_, ?_, ?_, ?_, ?_, ?_, ?_, ?_, ?_, ?_, ?_, ?_⟩
  · simp only [cmd_add]
    exact flags_after_update _ _ hdr
  · simp only [cmd_and]
    exact flags_after_update _ _ hdr
  · simp only [cmd_not]
    exact flags_after_update _ _ hdr
  · simp only [cmd_ld]
    exact flags_after_update _ _ hdr
  · simp only [cmd_ldi]
    exact flags_after_update _ _ hdr
  · simp only [cmd_ldr]
    exact flags_after_update _ _ hdr
  · simp only [cmd_lea]
    exact flags_after_update _ _ hdr
  · intro h
    simp only [cmd_trap, h]
    rw [if_pos trivial]
    exact flags_after_update _ _ hr0
  · intro h
    simp only [cmd_trap, h]
    rw [if_pos trivial]
    exact flags_after_update _ _ hr0
  · unfold condOf
    split_ifs <;> simp
  · unfold condOf
    split_ifs with h1 h2
    · simp [h1, FL_ZRO]
    · simp [FL_NEG, FL_ZRO, h1]
    · simp [FL_POS, FL_ZRO, h1]
  · intro hv
    rcases shiftRight15_cases v hv with hs | hs <;>
      · unfold condOf
        split_ifs with h1 h2 <;>
          simp_all [FL_NEG, FL_ZRO, FL_POS]
  · intro hv
    rcases shiftRight15_cases v hv with hs | hs <;>
      · unfold condOf
        split_ifs with h1 h2 <;>
          simp_all [FL_NEG, FL_ZRO, FL_POS]

/-- C3 witness: TRAP GETC on a machine with pending input byte 65 leaves
the condition register equal to condOf of register 0. -/
theorem C3_condition_flags_w :
    getReg (cmd_trap 0xF020 getcMachine) R_COND =
      condOf (getReg (cmd_trap 0xF020 getcMachine) R_R0) :=
  (C3_condition_flags getcMachine 0xF020 0).2.2.2.2.2.2.2.1 (by decide)

/-- C9: ADD in both modes reduces its 16-bit sum modulo 65536, LEA and
STR reduce their PC-relative and base-relative address sums modulo 65536,
and concretely ADD of 0xFFFF and immediate 1 yields 0x0000. -/
theorem C9_wraparound (m : Machine) (instr : Nat) :
    ((instr >>> 5) &&& 0x1 = 0 →
      getReg (cmd_add instr m) ((instr >>> 9) &&& 0x7) =
        (getReg m ((instr >>> 6) &&& 0x7) + getReg m (instr &&& 0x7)) % 65536) ∧
    ((instr >>> 5) &&& 0x1 = 1 →
      getReg (cmd_add instr m) ((instr >>> 9) &&& 0x7) =
        (getReg m ((instr >>> 6) &&& 0x7) + sign_extend (instr &&& 0x1f) 5) % 65536) ∧
    getReg (cmd_lea instr m) ((instr >>> 9) &&& 0x7) =
      (getReg m R_PC + sign_extend (instr &&& 0x1ff) 9) % 65536 ∧
    (cmd_str instr m).memory
        ((getReg m ((instr >>> 6) &&& 0x7) + sign_extend (instr &&& 0x3f) 6) % 65536) =
      getReg m ((instr >>> 9) &&& 0x7) ∧
    getReg (cmd_add 0x1061 addMachine) R_R0 = 0 ∧
    (0xFFFF + 1) % 65536 = 0 := by
  have hdr := dr_ne_rcond instr
  refine ⟨?_, ?_, ?_, ?_, by decide, by decide⟩
  · intro h
    simp only [cmd_add, h]
    rw [getReg_after_update_flags _ _ _ hdr, if_neg (by decide), getReg_setReg_self]
  · intro h
    simp only [cmd_add, h]
    rw [getReg_after_update_flags _ _ _ hdr, if_pos (by decide), getReg_setReg_self]
  · simp only [cmd_lea]
    rw [getReg_after_update_flags _ _ _ hdr, getReg_setReg_self]
  · simp only [cmd_str]
    rw [mem_write_memory_self]

/-- C9 witness: immediate-mode ADD at the instruction 0x1061 on a machine
whose register 1 holds 0xFFFF. -/
theorem C9_wraparound_w :
    getReg (cmd_add 0x1061 addMachine) ((0x1061 >>> 9) &&& 0x7) =
      (getReg addMachine ((0x1061 >>> 6) &&& 0x7) + sign_extend (0x1061 &&& 0x1f) 5) % 65536 :=
  (C9_wraparound addMachine 0x1061).2.1 (by decide)

/-- C7 witness: with the single pending byte 65, polling the status
address stages 65 in the data address and a data-address read returns it
without changing the machine. -/
theorem C7_keyboard_mmio_w :
    (mem_read MR_KBDR (mem_read MR_KBSR kbMachine).2).1 = 65 % 65536 ∧
    (mem_read MR_KBDR (mem_read MR_KBSR kbMachine).2).2 = (mem_read MR_KBSR kbMachine).2 :=
  (C7_keyboard_mmio kbMachine).2.2.2.2 65 [] rfl

/-- C2: the dispatcher increments PC as part of the fetch, so inside the
handlers every PC-relative address is computed from the address of the
instruction following the one being executed: with pc the pre-fetch PC
and instr the fetched word, a taken BR branches to (pc+1)+off9, LD loads
from (pc+1)+off9, LDI indirects through (pc+1)+off9, LEA computes
(pc+1)+off9, ST stores at (pc+1)+off9, STI stores through the word at
(pc+1)+off9, and long-form JSR jumps to (pc+1)+off11, all modulo 65536. -/
theorem C2_delayed_pc (m : Machine) (hk : getReg m R_PC ≠ MR_KBSR) :
    (m.memory (getReg m R_PC) >>> 12 = OP_BR →
      (m.memory (getReg m R_PC) >>> 9) &&& 0x7 &&& getReg m R_COND ≠ 0 →
      getReg (step m) R_PC =
        ((getReg m R_PC + 1) % 65536 +
          sign_extend (m.memory (getReg m R_PC) &&& 0x1ff) 9) % 65536) ∧
    (m.memory (getReg m R_PC) >>> 12 = OP_LD →
      ((getReg m R_PC + 1) % 65536 +
          sign_extend (m.memory (getReg m R_PC) &&& 0x1ff) 9) % 65536 ≠ MR_KBSR →
      getReg (step m) ((m.memory (getReg m R_PC) >>> 9) &&& 0x7) =
        m.memory (((getReg m R_PC + 1) % 65536 +
          sign_extend (m.memory (getReg m R_PC) &&& 0x1ff) 9) % 65536)) ∧
    (m.memory (getReg m R_PC) >>> 12 = OP_LDI →
      ((getReg m R_PC + 1) % 65536 +
          sign_extend (m.memory (getReg m R_PC) &&& 0x1ff) 9) % 65536 ≠ MR_KBSR →
      m.memory (((getReg m R_PC + 1) % 65536 +
          sign_extend (m.memory (getReg m R_PC) &&& 0x1ff) 9) % 65536) ≠ MR_KBSR →
      getReg (step m) ((m.memory (getReg m R_PC) >>> 9) &&& 0x7) =
        m.memory (m.memory (((getReg m R_PC + 1) % 65536 +
          sign_extend (m.memory (getReg m R_PC) &&& 0x1ff) 9) % 65536))) ∧
    (m.memory (getReg m R_PC) >>> 12 = OP_LEA →
      getReg (step m) ((m.memory (getReg m R_PC) >>> 9) &&& 0x7) =
        ((getReg m R_PC + 1) % 65536 +
          sign_extend (m.memory (getReg m R_PC) &&& 0x1ff) 9) % 65536) ∧
    (m.memory (getReg m R_PC) >>> 12 = OP_ST →
      (step m).memory (((getReg m R_PC + 1) % 65536 +
          sign_extend (m.memory (getReg m R_PC) &&& 0x1ff) 9) % 65536) =
        getReg m ((m.memory (getReg m R_PC) >>> 9) &&& 0x7)) ∧
    (m.memory (getReg m R_PC) >>> 12 = OP_STI →
      ((getReg m R_PC + 1) % 65536 +
          sign_extend (m.memory (getReg m R_PC) &&& 0x1ff) 9) % 65536 ≠ MR_KBSR →
      (step m).memory (m.memory (((getReg m R_PC + 1) % 65536 +
          sign_extend (m.memory (getReg m R_PC) &&& 0x1ff) 9) % 65536)) =
        getReg m ((m.memory (getReg m R_PC) >>> 9) &&& 0x7)) ∧
    (m.memory (getReg m R_PC) >>> 12 = OP_JSR →
      (m.memory (getReg m R_PC) >>> 11) &&& 1 ≠ 0 →
      getReg (step m) R_PC =
        ((getReg m R_PC + 1) % 65536 +
          sign_extend (m.memory (getReg m R_PC) &&& 0x7ff) 11) % 65536) := by
  refine ⟨?_, ?_, ?_, ?_, ?_, ?_, ?_⟩
  · intro hop hcond
    rw [step_fetch m hk, stepDispatch_br _ _ hop]
    simp only [cmd_br]
    rw [getReg_setReg_ne _ _ _ _ (by decide : R_COND ≠ R_PC)]
    rw [if_pos hcond]
    rw [getReg_setReg_self, getReg_setReg_self]
  · intro hop hea
    rw [step_fetch m hk, stepDispatch_ld _ _ hop]
    simp only [cmd_ld]
    simp only [getReg_setReg_self, mem_read_ne_kbsr _ _ hea]
    rw [getReg_after_update_flags _ _ _ (dr_ne_rcond _), getReg_setReg_self,
      setReg_memory]
  · intro hop hea hea2
    rw [step_fetch m hk, stepDispatch_ldi _ _ hop]
    simp only [cmd_ldi]
    simp only [getReg_setReg_self, mem_read_ne_kbsr _ _ hea]
    simp only [setReg_memory]
    simp only [mem_read_ne_kbsr _ _ hea2]
    rw [getReg_after_update_flags _ _ _ (dr_ne_rcond _), getReg_setReg_self,
      setReg_memory]
  · intro hop
    rw [step_fetch m hk, stepDispatch_lea _ _ hop]
    simp only [cmd_lea]
    rw [getReg_after_update_flags _ _ _ (dr_ne_rcond _), getReg_setReg_self,
      getReg_setReg_self]
  · intro hop
    rw [step_fetch m hk, stepDispatch_st _ _ hop]
    simp only [cmd_st]
    rw [getReg_setReg_self, mem_write_memory_self,
      getReg_setReg_ne _ _ _ _ (dr_ne_rpc _)]
  · intro hop hea
    rw [step_fetch m hk, stepDispatch_sti _ _ hop]
    simp only [cmd_sti]
    simp only [getReg_setReg_self, mem_read_ne_kbsr _ _ hea]
    simp only [setReg_memory]
    rw [mem_write_memory_self, getReg_setReg_ne _ _ _ _ (dr_ne_rpc _)]
  · intro hop hl
    rw [step_fetch m hk, stepDispatch_jsr _ _ hop]
    simp only [cmd_jsr]
    rw [if_pos hl]
    rw [getReg_setReg_self, getReg_setReg_ne _ _ _ _ (by decide : R_PC ≠ R_R7),
      getReg_setReg_self]

/-- C2 witness: executing LEA R0, #5 (0xE005) fetched at 0x3000 places
the address of the next instruction plus 5 in register 0. -/
theorem C2_delayed_pc_w :
    getReg (step leaMachine) ((leaMachine.memory (getReg leaMachine R_PC) >>> 9) &&& 0x7) =
      ((getReg leaMachine R_PC + 1) % 65536 +
        sign_extend (leaMachine.memory (getReg leaMachine R_PC) &&& 0x1ff) 9) % 65536 :=
  (C2_delayed_pc leaMachine (by decide)).2.2.2.1 (by decide)

/-- C10: a JSRR whose base-register field names register 7 transfers
control to the link address itself, because register 7 is overwritten
with the incremented PC before the base register is read: the new PC and
register 7 both hold the address of the instruction after the JSRR. -/
theorem C10_jsrr_base7 (m : Machine) (hk : getReg m R_PC ≠ MR_KBSR)
    (hop : m.memory (getReg m R_PC) >>> 12 = OP_JSR)
    (hlong : (m.memory (getReg m R_PC) >>> 11) &&& 1 = 0)
    (hbase : (m.memory (getReg m R_PC) >>> 6) &&& 0x7 = 7) :
    getReg (step m) R_PC = (getReg m R_PC + 1) % 65536 ∧
    getReg (step m) R_R7 = (getReg m R_PC + 1) % 65536 := by
  rw [step_fetch m hk, stepDispatch_jsr _ _ hop]
  simp only [cmd_jsr, hlong, hbase]
  rw [if_neg (by decide : ¬ ((0 : Nat) ≠ 0))]
  constructor
  · rw [getReg_setReg_self]
    show getReg (setReg R_R7 _ _) 7 = _
    rw [show (7 : Nat) = R_R7 from rfl]
    rw [getReg_setReg_self, getReg_setReg_self]
  · rw [getReg_setReg_ne _ _ _ _ (by decide : R_R7 ≠ R_PC)]
    rw [getReg_setReg_self, getReg_setReg_self]

/-- C10 witness: JSRR with base register 7 (0x41C0) fetched at 0x3000
sets both PC and register 7 to 0x3001. -/
theorem C10_jsrr_base7_w :
    getReg (step jsrrMachine) R_PC = (getReg jsrrMachine R_PC + 1) % 65536 ∧
    getReg (step jsrrMachine) R_R7 = (getReg jsrrMachine R_PC + 1) % 65536 :=
  C10_jsrr_base7 jsrrMachine (by decide) (by decide) (by decide) (by decide)

/-- C4 counterexample: register 0 points at the word 0x4100, whose low
byte is zero and whose high byte is 0x41, followed by the word 0x0042 and
a zero word.  The claim says the sequence ends at the first word, yet
TRAP PUTSP emits a NUL byte, the high byte 0x41, and then 0x42 from the
following word before stopping at the zero word. -/
theorem C4_putsp_truncation_cex :
    putspMachine.memory (getReg putspMachine R_R0) &&& 0xFF = 0 ∧
    putspMachine.memory (getReg putspMachine R_R0) ≠ 0 ∧
    (cmd_trap 0xF024 putspMachine).output = [0x00, 0x41, 0x42] := by
  decide

/-- C4 (amended): TRAP PUTSP writes two packed characters per word, the
low byte unconditionally - even when it is zero - and the high byte only
when nonzero, and stops exactly at the first word equal to zero; a word
with a zero low byte and a nonzero high byte does not end the sequence:
a NUL byte and then the high byte are written and the loop continues with
the next word. -/
theorem C4_putsp_packed (mem : Nat → Nat) (c fuel : Nat) (out : List Nat) :
    (mem c = 0 → putsp_loop (fuel + 1) mem c out = out) ∧
    (mem c ≠ 0 → mem c &&& 0xFF = 0 → mem c < 65536 →
      putsp_loop (fuel + 1) mem c out =
        putsp_loop fuel mem (c + 1) (out ++ [0, (mem c >>> 8) % 256])) ∧
    (mem c ≠ 0 →
      putsp_loop (fuel + 1) mem c out =
        putsp_loop fuel mem (c + 1)
          (if (mem c >>> 8) % 256 ≠ 0 then out ++ [mem c &&& 0xff, (mem c >>> 8) % 256]
           else out ++ [mem c &&& 0xff])) ∧
    (∀ (instr : Nat) (m : Machine), instr &&& 0xFF = TRAP_PUTSP →
      (cmd_trap instr m).output = putsp_loop 65536 m.memory (getReg m R_R0) m.output) := by
  refine ⟨?_, ?_, ?_, ?_⟩
  · intro h
    simp only [putsp_loop]
    rw [if_pos h]
  · intro h1 h2 h3
    have hmod : mem c &&& 0xFF = mem c % 256 := by
      have h8 : (0xFF : Nat) = 2 ^ 8 - 1 := by norm_num
      rw [h8, Nat.and_pow_two_sub_one_eq_mod]
    have h256 : mem c % 256 = 0 := by rw [← hmod]; exact h2
    have hs : mem c >>> 8 = mem c / 256 := by
      rw [Nat.shiftRight_eq_div_pow]
    have hchar2 : (mem c >>> 8) % 256 ≠ 0 := by
      rw [hs]
      omega
    simp only [putsp_loop]
    rw [if_neg h1, if_pos hchar2, h2]
  · intro h1
    simp only [putsp_loop]
    rw [if_neg h1]
  · intro instr m h
    simp [cmd_trap, h, TRAP_GETC, TRAP_OUT, TRAP_PUTS, TRAP_IN, TRAP_PUTSP, TRAP_HALT,
      getReg, setReg, R_R0, R_R7, R_PC]

/-- C4 witness: one unfolding of the loop on the machine whose first
string word is 0x4100 emits the NUL byte and the high byte 0x41 and
continues with the following word. -/
theorem C4_putsp_packed_w :
    putsp_loop (65535 + 1) putspMachine.memory 0x3100 [] =
      putsp_loop 65535 putspMachine.memory (0x3100 + 1)
        ([] ++ [0, (putspMachine.memory 0x3100 >>> 8) % 256]) :=
  (C4_putsp_packed putspMachine.memory 0x3100 65535 []).2.1 (by decide) (by decide)
    (by decide)

/-- C5 counterexample: executing the unrecognized trap 0xF0FF changes
register 7, so the machine state is not exactly as it was after the
fetch and PC increment. -/
theorem C5_unknown_trap_cex :
    ¬ (getReg (step unkTrapMachine) R_R7 = getReg unkTrapMachine R_R7) := by
  decide

/-- C5 (amended): executing a TRAP whose low 8 bits are none of the six
recognized vectors leaves memory, the condition flag, the running state,
and all registers other than register 7 unchanged, and execution
continues with the next instruction; register 7, however, is overwritten
with the incremented PC, because the link write precedes the switch on
the vector. -/
theorem C5_unknown_trap (m : Machine)
    (hk : getReg m R_PC ≠ MR_KBSR)
    (hop : m.memory (getReg m R_PC) >>> 12 = OP_TRAP)
    (h20 : m.memory (getReg m R_PC) &&& 0xFF ≠ TRAP_GETC)
    (h21 : m.memory (getReg m R_PC) &&& 0xFF ≠ TRAP_OUT)
    (h22 : m.memory (getReg m R_PC) &&& 0xFF ≠ TRAP_PUTS)
    (h23 : m.memory (getReg m R_PC) &&& 0xFF ≠ TRAP_IN)
    (h24 : m.memory (getReg m R_PC) &&& 0xFF ≠ TRAP_PUTSP)
    (h25 : m.memory (getReg m R_PC) &&& 0xFF ≠ TRAP_HALT) :
    step m =
      setReg R_R7 ((getReg m R_PC + 1) % 65536)
        (setReg R_PC ((getReg m R_PC + 1) % 65536) m) := by
  rw [step_fetch m hk, stepDispatch_trap _ _ hop]
  simp only [cmd_trap, if_neg h20, if_neg h21, if_neg h22, if_neg h23, if_neg h24,
    if_neg h25]
  rw [getReg_setReg_self]

/-- C5 witness: the unrecognized trap 0xF0FF fetched at 0x3000 yields
exactly the post-fetch machine with register 7 overwritten by 0x3001. -/
theorem C5_unknown_trap_w :
    step unkTrapMachine =
      setReg R_R7 ((getReg unkTrapMachine R_PC + 1) % 65536)
        (setReg R_PC ((getReg unkTrapMachine R_PC + 1) % 65536) unkTrapMachine) :=
  C5_unknown_trap unkTrapMachine (by decide) (by decide) (by decide) (by decide)
    (by decide) (by decide) (by decide) (by decide)

/-- C6: fetching a word whose opcode is OP_RTI (8) or OP_RES (13) makes
the machine terminate abnormally at that step: running becomes false with
the aborted flag raised - unlike the TRAP HALT path, which clears running
but leaves aborted untouched - memory is unchanged, and the run loop
executes no further instruction for any remaining fuel. -/
theorem C6_illegal_opcode (m : Machine) (k : Nat)
    (hk : getReg m R_PC ≠ MR_KBSR)
    (hop : m.memory (getReg m R_PC) >>> 12 = OP_RTI ∨
           m.memory (getReg m R_PC) >>> 12 = OP_RES) :
    (step m).aborted = true ∧
    (step m).running = false ∧
    (step m).memory = m.memory ∧
    run k (step m) = step m ∧
    (∀ m2 : Machine, getReg m2 R_PC ≠ MR_KBSR →
      m2.memory (getReg m2 R_PC) >>> 12 = OP_TRAP →
      m2.memory (getReg m2 R_PC) &&& 0xFF = TRAP_HALT →
      (step m2).running = false ∧ (step m2).aborted = m2.aborted) := by
  rw [step_fetch m hk, stepDispatch_abort _ _ hop]
  refine ⟨rfl, rfl, rfl, run_halted _ _ rfl, ?_⟩
  intro m2 hk2 hop2 hv
  rw [step_fetch m2 hk2, stepDispatch_trap _ _ hop2]
  simp [cmd_trap, hv, TRAP_GETC, TRAP_OUT, TRAP_PUTS, TRAP_IN, TRAP_PUTSP, TRAP_HALT,
    setReg_aborted]

/-- C6 witness: the RTI-opcode word 0x8000 fetched at 0x3000 aborts the
machine, while the TRAP HALT machine halts without raising aborted. -/
theorem C6_illegal_opcode_w :
    (step rtiMachine).aborted = true ∧ (step rtiMachine).running = false ∧
    (step haltTrapMachine).running = false ∧
    (step haltTrapMachine).aborted = haltTrapMachine.aborted :=
  ⟨(C6_illegal_opcode rtiMachine 3 (by decide) (Or.inl (by decide))).1,
   (C6_illegal_opcode rtiMachine 3 (by decide) (Or.inl (by decide))).2.1,
   ((C6_illegal_opcode rtiMachine 3 (by decide) (Or.inl (by decide))).2.2.2.2
       haltTrapMachine (by decide) (by decide) (by decide)).1,
   ((C6_illegal_opcode rtiMachine 3 (by decide) (Or.inl (by decide))).2.2.2.2
       haltTrapMachine (by decide) (by decide) (by decide)).2⟩

end LC3
